import Mathlib

/-!
Verification of the "Voxel Canvas" point-cloud demo (`src/pages/Index.tsx`).

The repository is a single React/three.js scene: a GLSL vertex shader maps a
video texture sample's luminance to camera-space depth, a 640×480 point grid
is built once at scene construction, a per-frame ease moves the camera toward
the pointer target, and an effect owns a hidden video element, its event
listeners and a GPU video texture.

We shallowly embed each of these pieces:
  * GLSL floats become exact rationals (`ℚ`); the GLSL `distance(a,b) > r`
    comparison is expressed square-root-free as `r < 0 ∨ r² < dist²` and
    proved equivalent to the real-number `r < √(dist²)` form.
  * The vertex shader `main` becomes a pure function from uniforms, a texture
    sampling function and the vertex position to the shader outputs; the
    projection/model-view matrix product is an opaque parameter `mvp`.
  * The point-grid construction loop becomes a structurally faithful
    recursion over a `List ℕ` buffer updated with `List.set`.
  * The video setup/teardown effect becomes a labelled transition system on a
    record of the component's observable state (overlay message, playing
    flag, which listeners are registered, whether the video element is in the
    document, whether the texture was disposed, how often `play()` was
    called).
-/

namespace Kinect

/-- GLSL `vec2` with exact rational components. -/
structure Vec2 where
  x : ℚ
  y : ℚ
deriving DecidableEq

/-- GLSL `vec4` with exact rational components. -/
structure Vec4 where
  x : ℚ
  y : ℚ
  z : ℚ
  w : ℚ
deriving DecidableEq

/-- An RGBA texture sample (`texture2D` result). -/
structure Color where
  r : ℚ
  g : ℚ
  b : ℚ
  a : ℚ
deriving DecidableEq

/-- The scalar uniforms of the vertex shader (`Index.tsx` lines 44-51).
The `sampler2D map` uniform is modelled separately as a sampling function
`Vec2 → Color` passed to `vertexMain`. -/
structure Uniforms where
  width : ℚ
  height : ℚ
  nearClipping : ℚ
  farClipping : ℚ
  pointSize : ℚ
  zOffset : ℚ
  circleRadius : ℚ
deriving DecidableEq

/-- `const float XtoZ = 1.11146;` (`Index.tsx` line 55). -/
def XtoZ : ℚ := 1.11146

/-- `const float YtoZ = 0.83359;` (`Index.tsx` line 56). -/
def YtoZ : ℚ := 0.83359

/-- `vec2(0.5, 0.5)`, the UV-space center the vignette is measured from. -/
def centerUv : Vec2 := ⟨1/2, 1/2⟩

/-- Squared Euclidean distance between two `vec2`s. -/
def dist2 (p q : Vec2) : ℚ := (p.x - q.x) ^ 2 + (p.y - q.y) ^ 2

/-- The GLSL cull test `distance(p, q) > r` (`Index.tsx` line 61), expressed
without square roots: over the reals, `√(dist²) > r` holds iff `r < 0` or
`r² < dist²` (theorem `distGt_iff_lt_sqrt` below). -/
def distGt (p q : Vec2) (r : ℚ) : Prop := r < 0 ∨ r ^ 2 < dist2 p q

instance (p q : Vec2) (r : ℚ) : Decidable (distGt p q r) :=
  inferInstanceAs (Decidable (r < 0 ∨ r ^ 2 < dist2 p q))

/-- `vUv = vec2(position.x / width, position.y / height)` (`Index.tsx` line 59). -/
def vUvOf (u : Uniforms) (position : Vec2) : Vec2 :=
  ⟨position.x / u.width, position.y / u.height⟩

/-- `float depth = (color.r + color.g + color.b) / 3.0;` (`Index.tsx` line 68):
the luminance of a texture sample, used as pseudo-depth. -/
def depthOf (color : Color) : ℚ := (color.r + color.g + color.b) / 3

/-- `float z = (1.0 - depth) * (farClipping - nearClipping) + nearClipping;`
(`Index.tsx` line 70): the luminance-to-depth mapping. -/
def zOfDepth (depth nearClipping farClipping : ℚ) : ℚ :=
  (1 - depth) * (farClipping - nearClipping) + nearClipping

/-- The outputs written by the vertex shader. -/
structure VertexOut where
  vUv : Vec2
  gl_PointSize : ℚ
  gl_Position : Vec4
deriving DecidableEq

/-- The vertex shader `main` (`Index.tsx` lines 58-81).  `tex` models the
`sampler2D map` uniform; `mvp` models multiplication by
`projectionMatrix * modelViewMatrix` (in the culled branch the shader writes
the constant `vec4(0.0, 0.0, 0.0, 1.0)` to `gl_Position` directly, with no
matrix applied, exactly as the source does). -/
def vertexMain (u : Uniforms) (tex : Vec2 → Color) (mvp : Vec4 → Vec4)
    (position : Vec2) : VertexOut :=
  let vUv := vUvOf u position
  if distGt vUv centerUv u.circleRadius then
    { vUv := vUv, gl_PointSize := 0, gl_Position := ⟨0, 0, 0, 1⟩ }
  else
    let color := tex vUv
    let depth := depthOf color
    let z := zOfDepth depth u.nearClipping u.farClipping
    let pos : Vec4 :=
      ⟨(position.x / u.width - 1/2) * z * XtoZ,
       (position.y / u.height - 1/2) * z * YtoZ,
       -z + u.zOffset, 1⟩
    { vUv := vUv, gl_PointSize := u.pointSize, gl_Position := mvp pos }

/-- The square-root-free cull test agrees with the real-number reading of the
GLSL source, `distance(p, q) > circleRadius`. -/
theorem distGt_iff_lt_sqrt (p q : Vec2) (r : ℚ) :
    distGt p q r ↔ (r : ℝ) < Real.sqrt ((dist2 p q : ℚ) : ℝ) := by
  have hd2 : (0 : ℚ) ≤ dist2 p q := by
    unfold dist2; positivity
  constructor
  · rintro (hr | hr)
    · exact lt_of_lt_of_le (by exact_mod_cast hr) (Real.sqrt_nonneg _)
    · rcases lt_or_le r 0 with hneg | hpos
      · exact lt_of_lt_of_le (by exact_mod_cast hneg) (Real.sqrt_nonneg _)
      · exact (Real.lt_sqrt (by exact_mod_cast hpos)).mpr (by exact_mod_cast hr)
  · intro hlt
    rcases lt_or_le r 0 with hneg | hpos
    · exact Or.inl hneg
    · refine Or.inr ?_
      have := (Real.lt_sqrt (x := (r : ℝ)) (by exact_mod_cast hpos)).mp hlt
      push_cast at this
      exact_mod_cast this

/-- The scene's default uniform values: `width = 640`, `height = 480` and the
leva control defaults `nearClipping = 850`, `farClipping = 4000`,
`pointSize = 2`, `zOffset = 1000`, `circleRadius = 0.7`
(`Index.tsx` lines 111-115, 122-123). -/
def u0 : Uniforms := ⟨640, 480, 850, 4000, 2, 1000, 7/10⟩

/-- A texture that is black everywhere (used as a concrete sampler). -/
def texBlack : Vec2 → Color := fun _ => ⟨0, 0, 0, 1⟩

/-- The identity projection/model-view transform (used as a concrete `mvp`). -/
def mvpId : Vec4 → Vec4 := fun v => v

/-- The grid corner vertex `(0, 0)`; its UV `(0, 0)` lies outside the default
vignette radius `0.7` since `√(1/2) > 0.7`. -/
def pCorner : Vec2 := ⟨0, 0⟩

/-- The grid vertex `(320, 240)`; its UV is exactly the center `(0.5, 0.5)`. -/
def pCenter : Vec2 := ⟨320, 240⟩

/-- If the cull test holds, `vertexMain` returns the culled output. -/
theorem vertexMain_of_distGt (u : Uniforms) (tex : Vec2 → Color)
    (mvp : Vec4 → Vec4) (p : Vec2)
    (h : distGt (vUvOf u p) centerUv u.circleRadius) :
    vertexMain u tex mvp p =
      { vUv := vUvOf u p, gl_PointSize := 0, gl_Position := ⟨0, 0, 0, 1⟩ } := by
  simp only [vertexMain, if_pos h]

/-- If the cull test fails, `vertexMain` returns the reprojected output. -/
theorem vertexMain_of_not_distGt (u : Uniforms) (tex : Vec2 → Color)
    (mvp : Vec4 → Vec4) (p : Vec2)
    (h : ¬ distGt (vUvOf u p) centerUv u.circleRadius) :
    vertexMain u tex mvp p =
      { vUv := vUvOf u p, gl_PointSize := u.pointSize,
        gl_Position := mvp
          ⟨(p.x / u.width - 1/2) *
             zOfDepth (depthOf (tex (vUvOf u p))) u.nearClipping u.farClipping * XtoZ,
           (p.y / u.height - 1/2) *
             zOfDepth (depthOf (tex (vUvOf u p))) u.nearClipping u.farClipping * YtoZ,
           -(zOfDepth (depthOf (tex (vUvOf u p))) u.nearClipping u.farClipping) +
             u.zOffset, 1⟩ } := by
  simp only [vertexMain, if_neg h]

/-- C1: with `nearClipping < farClipping` (the configuration the clipping
names describe; the defaults are 850 < 4000), the shader's luminance-to-depth
mapping `z = (1 − luminance) × (farClipping − nearClipping) + nearClipping`
is strictly monotonic decreasing in the luminance, luminance 0 maps to
`z = farClipping`, and luminance 1 maps to `z = nearClipping`. -/
theorem zOfDepth_antitone_and_endpoints (near far l1 l2 : ℚ) (hnf : near < far) :
    (l1 < l2 → zOfDepth l2 near far < zOfDepth l1 near far) ∧
    zOfDepth 0 near far = far ∧ zOfDepth 1 near far = near := by
  refine ⟨fun h => ?_, by unfold zOfDepth; ring, by unfold zOfDepth; ring⟩
  unfold zOfDepth
  nlinarith

/-- Witness for C1 at the default clipping planes 850/4000 and the extreme
luminances 0 and 1. -/
theorem zOfDepth_antitone_and_endpoints_witness :
    (850 : ℚ) < 4000 ∧ (0 : ℚ) < 1 ∧
    zOfDepth 1 850 4000 < zOfDepth 0 850 4000 ∧
    zOfDepth 0 850 4000 = 4000 ∧ zOfDepth 1 850 4000 = 850 := by
  have h := zOfDepth_antitone_and_endpoints 850 4000 0 1 (by norm_num)
  exact ⟨by norm_num, by norm_num, h.1 (by norm_num), h.2.1, h.2.2⟩

/-- C10: the shader applies the depth formula to arbitrary
`nearClipping`/`farClipping` values with no ordering guard: when
`farClipping = nearClipping` every luminance maps to `z = nearClipping`, when
`farClipping < nearClipping` the mapping is strictly monotonic increasing in
the luminance, and every non-culled vertex's position is built from
`zOfDepth` whatever the uniform values are. -/
theorem zOfDepth_no_ordering_guard (near far d a b : ℚ) (u : Uniforms)
    (tex : Vec2 → Color) (mvp : Vec4 → Vec4) (p : Vec2) :
    (far = near → zOfDepth d near far = near) ∧
    (far < near → a < b → zOfDepth a near far < zOfDepth b near far) ∧
    (¬ distGt (vUvOf u p) centerUv u.circleRadius →
      (vertexMain u tex mvp p).gl_Position =
        mvp ⟨(p.x / u.width - 1/2) *
               zOfDepth (depthOf (tex (vUvOf u p))) u.nearClipping u.farClipping * XtoZ,
             (p.y / u.height - 1/2) *
               zOfDepth (depthOf (tex (vUvOf u p))) u.nearClipping u.farClipping * YtoZ,
             -(zOfDepth (depthOf (tex (vUvOf u p))) u.nearClipping u.farClipping) +
               u.zOffset, 1⟩) := by
  refine ⟨fun h => ?_, fun h hab => ?_, fun h => ?_⟩
  · unfold zOfDepth; rw [h]; ring
  · unfold zOfDepth; nlinarith
  · rw [vertexMain_of_not_distGt u tex mvp p h]

/-- Witness for C10: equal clipping planes collapse every luminance to
`z = nearClipping`; swapped planes (`far = 500 < near = 1000`) make the
mapping increasing; the center vertex is non-culled and positioned through
`zOfDepth` for the default uniforms. -/
theorem zOfDepth_no_ordering_guard_witness :
    ((1000 : ℚ) = 1000 ∧ zOfDepth (1/2) 1000 1000 = 1000) ∧
    ((500 : ℚ) < 1000 ∧ (0 : ℚ) < 1 ∧ zOfDepth 0 1000 500 < zOfDepth 1 1000 500) ∧
    (¬ distGt (vUvOf u0 pCenter) centerUv u0.circleRadius ∧
      (vertexMain u0 texBlack mvpId pCenter).gl_Position =
        mvpId ⟨(pCenter.x / u0.width - 1/2) *
                 zOfDepth (depthOf (texBlack (vUvOf u0 pCenter))) u0.nearClipping u0.farClipping * XtoZ,
               (pCenter.y / u0.height - 1/2) *
                 zOfDepth (depthOf (texBlack (vUvOf u0 pCenter))) u0.nearClipping u0.farClipping * YtoZ,
               -(zOfDepth (depthOf (texBlack (vUvOf u0 pCenter))) u0.nearClipping u0.farClipping) +
                 u0.zOffset, 1⟩) := by
  have hnc : ¬ distGt (vUvOf u0 pCenter) centerUv u0.circleRadius := by
    simp only [distGt, dist2, vUvOf, u0, pCenter, centerUv]
    norm_num
  refine ⟨⟨rfl, (zOfDepth_no_ordering_guard 1000 1000 (1/2) 0 1 u0 texBlack mvpId pCenter).1 rfl⟩,
    ⟨by norm_num, by norm_num,
      (zOfDepth_no_ordering_guard 1000 500 (1/2) 0 1 u0 texBlack mvpId pCenter).2.1
        (by norm_num) (by norm_num)⟩,
    ⟨hnc, (zOfDepth_no_ordering_guard 1000 500 (1/2) 0 1 u0 texBlack mvpId pCenter).2.2 hnc⟩⟩

/-- C3: a vertex whose normalized UV lies at Euclidean distance greater than
`circleRadius` from the UV center `(0.5, 0.5)` is culled — point size 0 and
the degenerate position `(0, 0, 0, 1)` — regardless of texture content;
otherwise the vertex keeps the `pointSize` uniform and is positioned at
`((x/width − 0.5)·z·XtoZ, (y/height − 0.5)·z·YtoZ, −z + zOffset)` before the
projection/model-view transform `mvp`. -/
theorem vertexMain_vignette_cull (u : Uniforms) (tex : Vec2 → Color)
    (mvp : Vec4 → Vec4) (p : Vec2) :
    ((u.circleRadius : ℝ) < Real.sqrt ((dist2 (vUvOf u p) centerUv : ℚ) : ℝ) →
      (vertexMain u tex mvp p).gl_PointSize = 0 ∧
      (vertexMain u tex mvp p).gl_Position = ⟨0, 0, 0, 1⟩) ∧
    (¬ (u.circleRadius : ℝ) < Real.sqrt ((dist2 (vUvOf u p) centerUv : ℚ) : ℝ) →
      (vertexMain u tex mvp p).gl_PointSize = u.pointSize ∧
      (vertexMain u tex mvp p).gl_Position =
        mvp ⟨(p.x / u.width - 1/2) *
               zOfDepth (depthOf (tex (vUvOf u p))) u.nearClipping u.farClipping * XtoZ,
             (p.y / u.height - 1/2) *
               zOfDepth (depthOf (tex (vUvOf u p))) u.nearClipping u.farClipping * YtoZ,
             -(zOfDepth (depthOf (tex (vUvOf u p))) u.nearClipping u.farClipping) +
               u.zOffset, 1⟩) := by
  constructor
  · intro hlt
    rw [vertexMain_of_distGt u tex mvp p ((distGt_iff_lt_sqrt _ _ _).mpr hlt)]
    exact ⟨rfl, rfl⟩
  · intro hlt
    rw [vertexMain_of_not_distGt u tex mvp p
      (fun h => hlt ((distGt_iff_lt_sqrt _ _ _).mp h))]
    exact ⟨rfl, rfl⟩

/-- Witness for C3: with the default uniforms, the corner vertex `(0, 0)` is
outside the vignette (`√(1/2) > 0.7` since `0.7² = 0.49 < 0.5`) and is
culled, while the center vertex `(320, 240)` is inside and reprojected. -/
theorem vertexMain_vignette_cull_witness :
    ((vertexMain u0 texBlack mvpId pCorner).gl_PointSize = 0 ∧
      (vertexMain u0 texBlack mvpId pCorner).gl_Position = ⟨0, 0, 0, 1⟩) ∧
    ((vertexMain u0 texBlack mvpId pCenter).gl_PointSize = u0.pointSize ∧
      (vertexMain u0 texBlack mvpId pCenter).gl_Position =
        mvpId ⟨(pCenter.x / u0.width - 1/2) *
                 zOfDepth (depthOf (texBlack (vUvOf u0 pCenter))) u0.nearClipping u0.farClipping * XtoZ,
               (pCenter.y / u0.height - 1/2) *
                 zOfDepth (depthOf (texBlack (vUvOf u0 pCenter))) u0.nearClipping u0.farClipping * YtoZ,
               -(zOfDepth (depthOf (texBlack (vUvOf u0 pCenter))) u0.nearClipping u0.farClipping) +
                 u0.zOffset, 1⟩) := by
  have hcullCorner : distGt (vUvOf u0 pCorner) centerUv u0.circleRadius := by
    simp only [distGt, dist2, vUvOf, u0, pCorner, centerUv]
    norm_num
  have hkeepCenter : ¬ distGt (vUvOf u0 pCenter) centerUv u0.circleRadius := by
    simp only [distGt, dist2, vUvOf, u0, pCenter, centerUv]
    norm_num
  have hcorner : (u0.circleRadius : ℝ) <
      Real.sqrt ((dist2 (vUvOf u0 pCorner) centerUv : ℚ) : ℝ) :=
    (distGt_iff_lt_sqrt _ _ _).mp hcullCorner
  have hcenter : ¬ (u0.circleRadius : ℝ) <
      Real.sqrt ((dist2 (vUvOf u0 pCenter) centerUv : ℚ) : ℝ) :=
    fun h => hkeepCenter ((distGt_iff_lt_sqrt _ _ _).mpr h)
  exact ⟨(vertexMain_vignette_cull u0 texBlack mvpId pCorner).1 hcorner,
    (vertexMain_vignette_cull u0 texBlack mvpId pCenter).2 hcenter⟩

/-! ### Point grid generator

`Index.tsx` lines 126-131:
```
const vertices = new Float32Array(width * height * 3)
for (let i = 0, j = 0, l = vertices.length; i < l; i += 3, j++) {
  vertices[i] = j % width
  vertices[i + 1] = Math.floor(j / width)
}
```
The buffer is modelled as a `List ℕ` (every value written is a natural
number and a `Float32Array` is zero-initialized); the loop, which maintains
`i = 3 * j`, is modelled by recursion on `j` with in-place updates via
`List.set`. -/

/-- One loop iteration per `j`: writes `j % width` at index `3*j` and
`j / width` at index `3*j + 1`, while `3*j` is below the buffer length. -/
def fillVertices (width : ℕ) (vertices : List ℕ) (j : ℕ) : List ℕ :=
  if 3 * j < vertices.length then
    fillVertices width
      ((vertices.set (3 * j) (j % width)).set (3 * j + 1) (j / width)) (j + 1)
  else
    vertices
termination_by vertices.length - 3 * j
decreasing_by simp only [List.length_set]; omega

/-- The generated point buffer: a zero-initialized flat array of
`width * height * 3` entries filled by the loop starting at `j = 0`. -/
def gridVertices (width height : ℕ) : List ℕ :=
  fillVertices width (List.replicate (width * height * 3) 0) 0

/-- The fill loop never changes the buffer length. -/
theorem fillVertices_length (width : ℕ) (vertices : List ℕ) (j : ℕ) :
    (fillVertices width vertices j).length = vertices.length := by
  induction vertices, j using fillVertices.induct width with
  | case1 v j h ih =>
    rw [fillVertices, if_pos h]
    simp only [List.length_set] at ih ⊢
    exact ih
  | case2 v j h =>
    rw [fillVertices, if_neg h]

/-- The fill loop leaves every index below `3 * j`, and every index `≡ 2`
mod 3 (the z components), unchanged. -/
theorem fillVertices_getElem?_untouched (width : ℕ) (vertices : List ℕ)
    (j m : ℕ) (hm : m < 3 * j ∨ m % 3 = 2) :
    (fillVertices width vertices j)[m]? = vertices[m]? := by
  induction vertices, j using fillVertices.induct width with
  | case1 v j h ih =>
    rw [fillVertices, if_pos h]
    have hm' : m < 3 * (j + 1) ∨ m % 3 = 2 := by omega
    rw [ih hm']
    have h1 : 3 * j + 1 ≠ m := by omega
    have h0 : 3 * j ≠ m := by omega
    rw [List.getElem?_set_ne h1, List.getElem?_set_ne h0]
  | case2 v j h =>
    rw [fillVertices, if_neg h]

/-- For every `k ≥ j` still inside the buffer, the fill loop writes
`k % width` at index `3*k` and `k / width` at index `3*k + 1`. -/
theorem fillVertices_getElem?_written (width : ℕ) (vertices : List ℕ)
    (j k : ℕ) (hjk : j ≤ k) (hk : 3 * k + 1 < vertices.length) :
    (fillVertices width vertices j)[3 * k]? = some (k % width) ∧
    (fillVertices width vertices j)[3 * k + 1]? = some (k / width) := by
  induction vertices, j using fillVertices.induct width with
  | case1 v j h ih =>
    rw [fillVertices, if_pos h]
    rcases Nat.eq_or_lt_of_le hjk with heq | hlt
    · subst heq
      have hset := fillVertices_getElem?_untouched width
        ((v.set (3 * j) (j % width)).set (3 * j + 1) (j / width)) (j + 1)
      constructor
      · rw [hset (3 * j) (by omega),
          List.getElem?_set_ne (by omega : 3 * j + 1 ≠ 3 * j),
          List.getElem?_set_self (by omega)]
      · rw [hset (3 * j + 1) (by omega),
          List.getElem?_set_self (by simp only [List.length_set]; omega)]
    · exact ih hlt (by simp only [List.length_set]; omega)
  | case2 v j h =>
    omega

/-- C2: the generated point buffer for width 640, height 480 has exactly
`640 × 480` three-component entries, and entry `j` is
`(j mod 640, ⌊j / 640⌋, 0)`; the construction is a pure function of the
constants, hence deterministic. -/
theorem gridVertices_spec (j : ℕ) (hj : j < 640 * 480) :
    (gridVertices 640 480).length = 640 * 480 * 3 ∧
    (gridVertices 640 480)[3 * j]? = some (j % 640) ∧
    (gridVertices 640 480)[3 * j + 1]? = some (j / 640) ∧
    (gridVertices 640 480)[3 * j + 2]? = some 0 := by
  have hlen : (gridVertices 640 480).length = 640 * 480 * 3 := by
    rw [gridVertices, fillVertices_length, List.length_replicate]
  have hwritten := fillVertices_getElem?_written 640
    (List.replicate (640 * 480 * 3) 0) 0 j (Nat.zero_le j)
    (by rw [List.length_replicate]; omega)
  refine ⟨hlen, hwritten.1, hwritten.2, ?_⟩
  rw [gridVertices,
    fillVertices_getElem?_untouched 640 _ 0 (3 * j + 2) (Or.inr (by omega)),
    List.getElem?_replicate_of_lt (by omega)]

/-- Witness for C2 at entry `j = 1000`: row-major order places it at
`(1000 mod 640, ⌊1000 / 640⌋, 0) = (360, 1, 0)`. -/
theorem gridVertices_spec_witness :
    1000 < 640 * 480 ∧
    ((gridVertices 640 480).length = 640 * 480 * 3 ∧
     (gridVertices 640 480)[3 * 1000]? = some (1000 % 640) ∧
     (gridVertices 640 480)[3 * 1000 + 1]? = some (1000 / 640) ∧
     (gridVertices 640 480)[3 * 1000 + 2]? = some 0) :=
  ⟨by norm_num, gridVertices_spec 1000 (by norm_num)⟩

/-! ### Camera controller

`Index.tsx` lines 268-269 (`useFrame`):
```
camera.position.x += (mouseRef.current.x - camera.position.x) * 0.01
camera.position.y += (-mouseRef.current.y - camera.position.y) * 0.01
```
-/

/-- One per-frame camera ease step: `cam` is the camera position,
`target` the pointer target (`mouseRef.current`). -/
def cameraStep (cam target : ℚ × ℚ) : ℚ × ℚ :=
  (cam.1 + (target.1 - cam.1) * 0.01,
   cam.2 + (-target.2 - cam.2) * 0.01)

/-- Counterexample to C4 as stated: when the camera already sits at the
per-axis target (here camera = target = (0, 0)), the step leaves it there and
the distance to the target stays 0 — it does not strictly decrease. -/
theorem cameraStep_not_always_strict :
    cameraStep (0, 0) (0, 0) = (0, 0) ∧
    ¬ |(cameraStep (0, 0) (0, 0)).1 - 0| < |(0 : ℚ) - 0| := by
  constructor
  · simp only [cameraStep]; norm_num
  · simp only [cameraStep]; norm_num

/-- C4 amended: each frame the per-axis signed offset to the target
(`target.x` on x, `−target.y` on y) is multiplied by exactly `0.99`, so the
camera never overshoots (the offset never changes sign), and the per-axis
distance strictly decreases whenever the camera is not already at the
per-axis target; if it is, the distance stays 0. -/
theorem cameraStep_no_overshoot (cx cy tx ty : ℚ) :
    tx - (cameraStep (cx, cy) (tx, ty)).1 = (99/100) * (tx - cx) ∧
    (-ty) - (cameraStep (cx, cy) (tx, ty)).2 = (99/100) * ((-ty) - cy) ∧
    (cx ≠ tx → |(cameraStep (cx, cy) (tx, ty)).1 - tx| < |cx - tx|) ∧
    (cy ≠ -ty → |(cameraStep (cx, cy) (tx, ty)).2 - (-ty)| < |cy - (-ty)|) := by
  have hx : (cameraStep (cx, cy) (tx, ty)).1 - tx = (99/100) * (cx - tx) := by
    simp only [cameraStep]; ring
  have hy : (cameraStep (cx, cy) (tx, ty)).2 - (-ty) = (99/100) * (cy - (-ty)) := by
    simp only [cameraStep]; ring
  refine ⟨by simp only [cameraStep]; ring, by simp only [cameraStep]; ring, ?_, ?_⟩
  · intro hne
    rw [hx, abs_mul]
    have habs : (0 : ℚ) < |cx - tx| := abs_pos.mpr (sub_ne_zero.mpr hne)
    calc |(99/100 : ℚ)| * |cx - tx| = (99/100) * |cx - tx| := by norm_num
      _ < 1 * |cx - tx| := by nlinarith
      _ = |cx - tx| := one_mul _
  · intro hne
    rw [hy, abs_mul]
    have habs : (0 : ℚ) < |cy - (-ty)| := abs_pos.mpr (sub_ne_zero.mpr hne)
    calc |(99/100 : ℚ)| * |cy - (-ty)| = (99/100) * |cy - (-ty)| := by norm_num
      _ < 1 * |cy - (-ty)| := by nlinarith
      _ = |cy - (-ty)| := one_mul _

/-- Witness for the amended C4 at camera (0, 0) and target (100, 100): both
per-axis distances strictly decrease. -/
theorem cameraStep_no_overshoot_witness :
    ((0 : ℚ) ≠ 100) ∧ ((0 : ℚ) ≠ -100) ∧
    |(cameraStep (0, 0) (100, 100)).1 - 100| < |(0 : ℚ) - 100| ∧
    |(cameraStep (0, 0) (100, 100)).2 - (-100)| < |(0 : ℚ) - (-100)| :=
  ⟨by norm_num, by norm_num,
    (cameraStep_no_overshoot 0 0 100 100).2.2.1 (by norm_num),
    (cameraStep_no_overshoot 0 0 100 100).2.2.2 (by norm_num)⟩

/-! ### Video texture source: state machine

`Index.tsx` lines 159-237.  The observable component state is the overlay
message (`videoLoadError`), the `videoPlaying` flag, which listeners are
registered (the document-level `playOnClick` click listener and the video
element's `error`/`play` listeners), whether the hidden video element is in
the document, whether the GPU texture has been disposed, and how many times
`video.play()` has been called.  Each handler in the source becomes one
transition. -/

/-- JavaScript `x || dflt` applied to an optional numeric field
(`video.error?.code || 'неизвестно'`): `0` is falsy. -/
def jsOrNat (x : Option ℕ) (dflt : String) : String :=
  match x with
  | some c => if c = 0 then dflt else toString c
  | none => dflt

/-- JavaScript `x || dflt` applied to an optional string field
(`video.error?.message || '...'`): the empty string is falsy. -/
def jsOrStr (x : Option String) (dflt : String) : String :=
  match x with
  | some m => if m = "" then dflt else m
  | none => dflt

/-- The overlay message built by `handleVideoError` (`Index.tsx` line 170)
from the underlying `video.error` code and message. -/
def videoErrorText (code : Option ℕ) (message : Option String) : String :=
  "Не удалось загрузить видео. Код ошибки: " ++ jsOrNat code "неизвестно" ++
  ". Сообщение: " ++ jsOrStr message "Нет сообщения." ++
  " Попробуйте кликнуть по экрану."

/-- The overlay message set when the initial `play()` promise rejects
(`Index.tsx` line 204). -/
def blockedText : String :=
  "Автовоспроизведение заблокировано. Кликните в любом месте экрана для запуска."

/-- The overlay message set when the click-retry `play()` also rejects
(`Index.tsx` line 220), built from the click error's message. -/
def clickFailText (errMessage : Option String) : String :=
  "Не удалось воспроизвести видео даже после клика. Ошибка: " ++
  jsOrStr errMessage "неизвестно" ++ "."

/-- Observable state of the `KinectScene` video setup effect. -/
structure SceneState where
  /-- `videoLoadError` React state: `some msg` renders the full-screen
  overlay with `msg`. -/
  videoLoadError : Option String
  /-- `videoPlaying` React state. -/
  videoPlaying : Bool
  /-- Whether `playOnClick` is registered on the document. -/
  clickRegistered : Bool
  /-- Whether `handleVideoError` is registered on the video element. -/
  errorRegistered : Bool
  /-- Whether `handleVideoPlay` is registered on the video element. -/
  playRegistered : Bool
  /-- Whether the hidden video element is appended to `document.body`. -/
  videoInDocument : Bool
  /-- Whether the GPU video texture has been disposed. -/
  textureDisposed : Bool
  /-- How many times `video.play()` has been called. -/
  playCalls : ℕ
deriving DecidableEq

/-- The overlay is rendered exactly when `videoLoadError` is non-null
(`Index.tsx` lines 278-282). -/
def overlayVisible (s : SceneState) : Bool := s.videoLoadError.isSome

/-- State right after the setup effect body ran (`Index.tsx` lines 159-194):
`error`/`play` listeners added, video appended, texture created and wired,
initial `play()` called (its promise not yet settled). -/
def setupState : SceneState :=
  { videoLoadError := none, videoPlaying := false, clickRegistered := false,
    errorRegistered := true, playRegistered := true, videoInDocument := true,
    textureDisposed := false, playCalls := 1 }

/-- The initial `play()` promise fulfilled (`Index.tsx` lines 197-201). -/
def initialPlayFulfilled (s : SceneState) : SceneState :=
  { s with videoPlaying := true, videoLoadError := none }

/-- The initial `play()` promise rejected (`Index.tsx` lines 202-224): set
the blocked overlay message, clear `videoPlaying`, and register the
`playOnClick` click listener on the document. -/
def initialPlayRejected (s : SceneState) : SceneState :=
  { s with videoLoadError := some blockedText, videoPlaying := false,
           clickRegistered := true }

/-- `playOnClick` fired while the video is not paused (`Index.tsx` lines
207-210): deregister the click listener and return without calling
`play()`. -/
def playOnClickNotPaused (s : SceneState) : SceneState :=
  { s with clickRegistered := false }

/-- `playOnClick` fired while the video is paused and the retried `play()`
fulfilled (`Index.tsx` lines 211-217): set `videoPlaying`, clear the
overlay, deregister the click listener. -/
def playOnClickFulfilled (s : SceneState) : SceneState :=
  { s with playCalls := s.playCalls + 1, videoPlaying := true,
           videoLoadError := none, clickRegistered := false }

/-- `playOnClick` fired while the video is paused and the retried `play()`
rejected (`Index.tsx` lines 218-221): set the failure overlay message; the
click listener stays registered and `videoPlaying` is not touched. -/
def playOnClickRejected (errMessage : Option String) (s : SceneState) : SceneState :=
  { s with playCalls := s.playCalls + 1,
           videoLoadError := some (clickFailText errMessage) }

/-- The video fired an `error` event (`Index.tsx` lines 168-172). -/
def handleVideoError (code : Option ℕ) (message : Option String)
    (s : SceneState) : SceneState :=
  { s with videoLoadError := some (videoErrorText code message),
           videoPlaying := false }

/-- The video fired a `play` event (`Index.tsx` lines 174-177). -/
def handleVideoPlay (s : SceneState) : SceneState :=
  { s with videoPlaying := true, videoLoadError := none }

/-- The effect cleanup run at scene teardown (`Index.tsx` lines 227-236):
if the video is still in the document, remove its `error`/`play` listeners
and the element itself; dispose the texture (it is always created by the
setup, so `textureRef.current` is non-null).  Note the cleanup never removes
the document-level `playOnClick` click listener. -/
def cleanup (s : SceneState) : SceneState :=
  let s1 :=
    if s.videoInDocument then
      { s with errorRegistered := false, playRegistered := false,
               videoInDocument := false }
    else s
  { s1 with textureDisposed := true }

/-- C5: when the initial `play()` promise rejects, the state becomes
blocked-needs-interaction — the overlay shows the "click to start" message
and the document click handler is registered; a click whose retried `play()`
fulfills transitions to playing, clears the overlay and deregisters the
handler; a click whose retried `play()` rejects again leaves the state
errored with the failure message. -/
theorem autoplay_blocked_recovery (m : Option String) :
    (initialPlayRejected setupState).videoLoadError = some blockedText ∧
    overlayVisible (initialPlayRejected setupState) = true ∧
    (initialPlayRejected setupState).clickRegistered = true ∧
    (initialPlayRejected setupState).videoPlaying = false ∧
    (playOnClickFulfilled (initialPlayRejected setupState)).videoPlaying = true ∧
    (playOnClickFulfilled (initialPlayRejected setupState)).videoLoadError = none ∧
    overlayVisible (playOnClickFulfilled (initialPlayRejected setupState)) = false ∧
    (playOnClickFulfilled (initialPlayRejected setupState)).clickRegistered = false ∧
    (playOnClickRejected m (initialPlayRejected setupState)).videoLoadError =
      some (clickFailText m) ∧
    (playOnClickRejected m (initialPlayRejected setupState)).videoPlaying = false ∧
    (playOnClickRejected m (initialPlayRejected setupState)).clickRegistered = true :=
  ⟨rfl, rfl, rfl, rfl, rfl, rfl, rfl, rfl, rfl, rfl, rfl⟩

/-- C9: a document click while the retry handler is registered and the video
is already playing (not paused) only deregisters the handler: `play()` is
not called (the call count is unchanged) and neither the playback state nor
the overlay changes. -/
theorem playOnClick_not_paused_noop (s : SceneState)
    (_h : s.clickRegistered = true) :
    (playOnClickNotPaused s).clickRegistered = false ∧
    (playOnClickNotPaused s).playCalls = s.playCalls ∧
    (playOnClickNotPaused s).videoLoadError = s.videoLoadError ∧
    (playOnClickNotPaused s).videoPlaying = s.videoPlaying ∧
    overlayVisible (playOnClickNotPaused s) = overlayVisible s :=
  ⟨rfl, rfl, rfl, rfl, rfl⟩

/-- Witness for C9 from the blocked state reached after autoplay
rejection. -/
theorem playOnClick_not_paused_noop_witness :
    (initialPlayRejected setupState).clickRegistered = true ∧
    ((playOnClickNotPaused (initialPlayRejected setupState)).clickRegistered = false ∧
     (playOnClickNotPaused (initialPlayRejected setupState)).playCalls =
       (initialPlayRejected setupState).playCalls ∧
     (playOnClickNotPaused (initialPlayRejected setupState)).videoLoadError =
       (initialPlayRejected setupState).videoLoadError ∧
     (playOnClickNotPaused (initialPlayRejected setupState)).videoPlaying =
       (initialPlayRejected setupState).videoPlaying ∧
     overlayVisible (playOnClickNotPaused (initialPlayRejected setupState)) =
       overlayVisible (initialPlayRejected setupState)) :=
  ⟨rfl, playOnClick_not_paused_noop (initialPlayRejected setupState) rfl⟩

/-- C6 (code bug): tearing the scene down while autoplay was rejected (the
click-retry handler is registered) removes the video element and its
`error`/`play` listeners and disposes the texture, but leaves the
document-level `playOnClick` click listener registered — the cleanup never
calls `document.removeEventListener('click', playOnClick)`. -/
theorem cleanup_leaks_click_listener :
    (cleanup (initialPlayRejected setupState)).clickRegistered = true ∧
    (cleanup (initialPlayRejected setupState)).errorRegistered = false ∧
    (cleanup (initialPlayRejected setupState)).playRegistered = false ∧
    (cleanup (initialPlayRejected setupState)).videoInDocument = false ∧
    (cleanup (initialPlayRejected setupState)).textureDisposed = true :=
  ⟨rfl, rfl, rfl, rfl, rfl⟩

/-- C7: an `error` event whose underlying error has code 4 and message
"format not supported" sets the overlay to a message containing both the
substring `"4"` and the substring `"format not supported"`. -/
theorem videoError_overlay_code_and_message (s : SceneState) :
    (handleVideoError (some 4) (some "format not supported") s).videoLoadError =
      some (videoErrorText (some 4) (some "format not supported")) ∧
    overlayVisible (handleVideoError (some 4) (some "format not supported") s) = true ∧
    (∃ pre post,
      videoErrorText (some 4) (some "format not supported") = pre ++ "4" ++ post) ∧
    (∃ pre post,
      videoErrorText (some 4) (some "format not supported") =
        pre ++ "format not supported" ++ post) := by
  refine ⟨rfl, rfl,
    ⟨"Не удалось загрузить видео. Код ошибки: ",
     ". Сообщение: format not supported Попробуйте кликнуть по экрану.", ?_⟩,
    ⟨"Не удалось загрузить видео. Код ошибки: 4. Сообщение: ",
     " Попробуйте кликнуть по экрану.", ?_⟩⟩ <;> rfl

/-! ### Video texture filter settings

`Index.tsx` lines 185-188:
```
const texture = new THREE.VideoTexture(video)
texture.minFilter = THREE.NearestFilter
texture.generateMipmaps = false
```
-/

/-- The three.js texture filters relevant here. -/
inductive TextureFilter where
  | NearestFilter
  | LinearFilter
deriving DecidableEq

/-- The sampling-related texture settings. -/
structure TextureSettings where
  minFilter : TextureFilter
  magFilter : TextureFilter
  generateMipmaps : Bool
deriving DecidableEq

/-- A freshly constructed `THREE.VideoTexture` (external three.js library
semantics: the `VideoTexture` constructor defaults both `minFilter` and
`magFilter` to `LinearFilter` and sets `generateMipmaps = false`). -/
def videoTextureDefaults : TextureSettings :=
  { minFilter := .LinearFilter, magFilter := .LinearFilter,
    generateMipmaps := false }

/-- The texture as configured by the setup effect: only `minFilter` and
`generateMipmaps` are assigned; `magFilter` is never touched. -/
def sceneTexture : TextureSettings :=
  { videoTextureDefaults with minFilter := .NearestFilter,
                              generateMipmaps := false }

/-- Counterexample to C8 as stated: the texture is not configured with the
nearest filter for all sampling — the magnification filter is not
`NearestFilter`. -/
theorem sceneTexture_not_all_nearest :
    ¬ (sceneTexture.minFilter = TextureFilter.NearestFilter ∧
       sceneTexture.magFilter = TextureFilter.NearestFilter ∧
       sceneTexture.generateMipmaps = false) := by
  decide

/-- C8 amended: the minification filter is nearest and mipmap generation is
disabled, but the magnification filter keeps the library default
`LinearFilter`, so magnified sampling still interpolates. -/
theorem sceneTexture_min_nearest_no_mipmaps :
    sceneTexture.minFilter = TextureFilter.NearestFilter ∧
    sceneTexture.generateMipmaps = false ∧
    sceneTexture.magFilter = TextureFilter.LinearFilter := by
  decide

end Kinect
